import Mathlib

/-!
# rhc: connect / disconnect / status orchestration

A shallow embedding of the three command actions of `main.go`
(`connect`, `disconnect`, `status`).  Each action is a pure function from an
environment, which fixes the result every external call would give, to the
ordered trace of externally visible events together with the value the
action returns.

Conventions:
* an environment field named after an external function holds the result
  that function returns when it is called; a call that is not reached leaves
  no event in the trace, whatever the field holds;
* `isColorful` and the three prefixes are read after `app.Before` ran, so
  they are either all in their terminal form or all in their plain form;
* wall-clock durations are not modelled, only the keys of the `durations`
  map; a table printed by ranging over a map is one event carrying the rows;
* `BrandName`, `ShortName` and `Provider` are declared outside `main.go` and
  are parameters (`Consts`).
-/

namespace Rhc

/-! ## Go values -/

/-- Go `error` values: a plain message, or `fmt.Errorf(pre + "%w", inner)`. -/
inductive GoError where
  | base (msg : String)
  | wrap (pre : String) (inner : GoError)
  deriving DecidableEq, Repr

/-- The `Error()` method. -/
def GoError.Error : GoError → String
  | .base m => m
  | .wrap p e => p ++ e.Error

/-- A Go `map[string]V`, kept as an association list with distinct keys.
Iteration order of a Go map is unspecified; only lookups and the length are
observable here. -/
abbrev GoMap (V : Type) := List (String × V)

/-- Assignment `m[k] = v`: an existing entry for `k` is replaced. -/
def GoMap.set {V : Type} (m : GoMap V) (k : String) (v : V) : GoMap V :=
  m.filter (fun kv => kv.1 != k) ++ [(k, v)]

/-- Lookup `m[k]` with presence. -/
def GoMap.get? {V : Type} (m : GoMap V) (k : String) : Option V :=
  List.lookup k m

/-- Builtin `len(m)`. -/
def GoMap.len {V : Type} (m : GoMap V) : Nat := m.length

/-- Key list of the map. -/
def GoMap.keys {V : Type} (m : GoMap V) : List String := m.map Prod.fst

/-- Constants of package `main` declared outside `main.go`. -/
structure Consts where
  ShortName : String
  BrandName : String
  Provider : String

/-! ## Display constants (lines 20-32) -/

def redColor : String := "\x1b[31m"
def greenColor : String := "\x1b[32m"
def endColor : String := "\x1b[0m"

def ttySuccessPrefix : String := greenColor ++ "●" ++ endColor
def ttyFailPrefix : String := redColor ++ "●" ++ endColor
def ttyErrorPrefix : String := redColor ++ "!" ++ endColor

def bwSuccessPrefix : String := "✓"
def bwFailPrefix : String := "𐄂"
def bwErrorPrefix : String := "!"

/-- Value of `successPrefix` after `app.Before` ran (lines 53, 434-439). -/
def successPrefix (isColorful : Bool) : String :=
  if isColorful then ttySuccessPrefix else bwSuccessPrefix

/-- Value of `failPrefix` after `app.Before` ran (lines 54, 434-439). -/
def failPrefix (isColorful : Bool) : String :=
  if isColorful then ttyFailPrefix else bwFailPrefix

/-- Value of `errorPrefix` after `app.Before` ran (lines 55, 434-439). -/
def errorPrefix (isColorful : Bool) : String :=
  if isColorful then ttyErrorPrefix else bwErrorPrefix

/-! ## Events and results -/

/-- A dynamically typed D-Bus property value (`interface{}`): a string or
anything else. -/
inductive DBusValue where
  | str (s : String)
  | other
  deriving DecidableEq, Repr

/-- Externally visible events of an action, in program order. -/
inductive Event where
  /-- `os.Hostname()` -/
  | osHostname
  /-- `fmt.Print(text)` -/
  | print (text : String)
  /-- `fmt.Printf(format, args...)` -/
  | printf (format : String) (args : List String)
  /-- `fmt.Println()` -/
  | println
  /-- `scanner.Scan()` on standard input, the username prompt read -/
  | scanStdin
  /-- `term.ReadPassword`, the masked password prompt read -/
  | readPassword
  /-- `s.Start()` of a spinner with the given suffix -/
  | spinnerStart (suffix : String)
  /-- `s.Stop()` -/
  | spinnerStop
  | getConsumerUUID
  | registerActivationKey (organization : String) (keys : List String) (server : String)
  | registerPassword (username password server : String)
  | registerInsights
  | activate
  | deactivate
  | unregisterInsights
  | unregister
  | insightsIsRegistered
  /-- `systemd.NewSystemConnection()` -/
  | newSystemConnection
  /-- `conn.GetUnitProperties(unitName)` -/
  | getUnitProperties (unitName : String)
  /-- The deferred `conn.Close()` -/
  | connClose
  /-- The tabwriter table of step durations; rows in map order -/
  | durationTable (steps : List String)
  /-- The tabwriter table of accumulated errors; rows in map order -/
  | errorTable (rows : List (String × String))
  deriving DecidableEq, Repr

/-- First argument of `cli.Exit`. -/
inductive ExitMessage where
  | err (e : GoError)
  | text (s : String)
  deriving DecidableEq, Repr

/-- How an action ends: `return nil`, `return cli.Exit(message, code)`, or a
run-time panic. -/
inductive Ret where
  | nil
  | exit (message : ExitMessage) (code : Nat)
  | panicked
  deriving DecidableEq, Repr

/-- Process exit status that `app.Run` produces for the returned value. -/
def Ret.exitCode : Ret → Nat
  | .nil => 0
  | .exit _ code => code
  | .panicked => 2

/-- A completed run of an action. -/
structure Run where
  trace : List Event
  ret : Ret
  deriving DecidableEq, Repr

/-- Spinner start guarded by `if isColorful`. -/
def spinStart (isColorful : Bool) (suffix : String) : List Event :=
  if isColorful then [.spinnerStart suffix] else []

/-- Spinner stop guarded by `if isColorful`. -/
def spinStop (isColorful : Bool) : List Event :=
  if isColorful then [.spinnerStop] else []

/-- The closing duration table, printed when the log level is debug
(lines 207-215 and 290-298). -/
def debugTable (debugLevel : Bool) (durations : GoMap Unit) : List Event :=
  if debugLevel then [.println, .durationTable durations.keys] else []

/-! ## strings.TrimSpace -/

/-- The predicate `unicode.IsSpace`. -/
def isSpace (c : Char) : Bool :=
  c.toNat ∈ [0x09, 0x0A, 0x0B, 0x0C, 0x0D, 0x20, 0x85, 0xA0, 0x1680, 0x2028, 0x2029,
    0x202F, 0x205F, 0x3000] || (0x2000 ≤ c.toNat && c.toNat ≤ 0x200A)

/-- The function `strings.TrimSpace`. -/
def trimSpace (s : String) : String :=
  String.mk ((s.data.dropWhile isSpace).reverse.dropWhile isSpace).reverse

/-! ## connect (lines 110-218) -/

/-- Results of everything the connect action reads or calls. -/
structure ConnectEnv where
  isColorful : Bool
  /-- `log.CurrentLevel() >= log.LevelDebug` -/
  debugLevel : Bool
  hostname : Except GoError String
  getConsumerUUID : Except GoError String
  /-- `c.String("username")` -/
  username : String
  /-- `c.String("password")` -/
  password : String
  /-- `c.String("organization")` -/
  organization : String
  /-- `c.StringSlice("activation-key")` -/
  activationKey : List String
  /-- `c.String("server")` -/
  server : String
  /-- `scanner.Text()` after the scan of standard input -/
  scannerText : String
  /-- Result of `term.ReadPassword` -/
  readPassword : Except GoError String
  registerActivationKey : String → List String → String → Option GoError
  registerPassword : String → String → String → Option GoError
  registerInsights : Option GoError
  activate : Option GoError

/-- Lines 127-147: the username and password handed to registration, with
the prompt events issued on the way. -/
def resolveCredentials (e : ConnectEnv) : List Event × Except GoError (String × String) :=
  let username := e.username
  let password := e.password
  if e.organization = "" then
    let r : List Event × String × String :=
      if username = "" then
        ([.print "Username: ", .scanStdin], trimSpace e.scannerText, "")
      else
        ([], username, password)
    if r.2.2 = "" then
      match e.readPassword with
      | .error err => (r.1 ++ [.print "Password: ", .readPassword], .error err)
      | .ok data =>
        (r.1 ++ [.print "Password: ", .readPassword, .printf "\n\n" []], .ok (r.2.1, data))
    else
      (r.1, .ok (r.2.1, r.2.2))
  else
    ([], .ok (username, password))

/-- Lines 156-160: the register call that is dispatched. -/
def registerDispatch (e : ConnectEnv) (username password : String) : Event × Option GoError :=
  if e.organization ≠ "" then
    (.registerActivationKey e.organization e.activationKey e.server,
      e.registerActivationKey e.organization e.activationKey e.server)
  else
    (.registerPassword username password e.server,
      e.registerPassword username password e.server)

/-- Lines 126-171: the subscription step after `getConsumerUUID` returned
`uuid`.  Gives the events of the step and either the error it exits with
or the durations map after `durations["rhsm"]` was set. -/
def connectSubscription (e : ConnectEnv) (uuid : String) :
    List Event × Except GoError (GoMap Unit) :=
  if uuid = "" then
    match resolveCredentials e with
    | (t, .error err) => (t, .error err)
    | (t, .ok (username, password)) =>
      let d := registerDispatch e username password
      let t1 := t ++ spinStart e.isColorful " Connecting to Red Hat Subscription Management..."
        ++ [d.1] ++ spinStop e.isColorful
      match d.2 with
      | some err => (t1, .error err)
      | none =>
        (t1 ++ [.printf (successPrefix e.isColorful
            ++ " Connected to Red Hat Subscription Management\n") []],
          .ok (GoMap.set [] "rhsm" ()))
  else
    ([.printf (successPrefix e.isColorful
        ++ " This system is already connected to Red Hat Subscription Management\n") []],
      .ok (GoMap.set [] "rhsm" ()))

/-- Lines 190-217: the daemon step and the closing output. -/
def connectDaemon (k : Consts) (e : ConnectEnv) (durations : GoMap Unit) : Run :=
  let t := spinStart e.isColorful (" Activating the " ++ k.BrandName ++ " daemon")
    ++ [.activate] ++ spinStop e.isColorful
  match e.activate with
  | some err => ⟨t, .exit (.err err) 1⟩
  | none =>
    let durations := durations.set k.BrandName ()
    ⟨t ++ [.printf (successPrefix e.isColorful ++ " Activated the %v daemon\n") [k.BrandName],
        .printf "\nManage your Red Hat connector systems: https://red.ht/connector\n" []]
      ++ debugTable e.debugLevel durations, .nil⟩

/-- Lines 173-217: the telemetry step, then the daemon step. -/
def connectInsights (k : Consts) (e : ConnectEnv) (durations : GoMap Unit) : Run :=
  let t := spinStart e.isColorful " Connecting to Red Hat Insights..."
    ++ [.registerInsights] ++ spinStop e.isColorful
  match e.registerInsights with
  | some err => ⟨t, .exit (.err err) 1⟩
  | none =>
    let r := connectDaemon k e (durations.set "insights" ())
    ⟨t ++ [.printf (successPrefix e.isColorful ++ " Connected to Red Hat Insights\n") []]
      ++ r.trace, r.ret⟩

/-- The `Action` of the `connect` command (lines 110-218). -/
def connect (k : Consts) (e : ConnectEnv) : Run :=
  match e.hostname with
  | .error err => ⟨[.osHostname], .exit (.err err) 1⟩
  | .ok hostname =>
    let t0 : List Event := [.osHostname,
      .printf "Connecting %v to %v.\nThis might take a few seconds.\n\n" [hostname, k.Provider],
      .getConsumerUUID]
    match e.getConsumerUUID with
    | .error err => ⟨t0, .exit (.err err) 1⟩
    | .ok uuid =>
      match connectSubscription e uuid with
      | (t, .error err) => ⟨t0 ++ t, .exit (.err err) 1⟩
      | (t, .ok durations) =>
        let r := connectInsights k e durations
        ⟨t0 ++ t ++ r.trace, r.ret⟩

/-! ## disconnect (lines 225-313) -/

/-- Results of everything the disconnect action reads or calls. -/
structure DisconnectEnv where
  isColorful : Bool
  /-- `log.CurrentLevel() >= log.LevelDebug` -/
  debugLevel : Bool
  hostname : Except GoError String
  deactivate : Option GoError
  unregisterInsights : Option GoError
  unregister : Option GoError

/-- Local state of the disconnect action while it runs. -/
structure DisconnectState where
  trace : List Event
  durations : GoMap Unit
  errorMessages : GoMap GoError

/-- Lines 237-252: deactivate the daemon. -/
def disconnectDaemon (k : Consts) (e : DisconnectEnv) (s : DisconnectState) : DisconnectState :=
  let t := s.trace ++ spinStart e.isColorful (" Deactivating the " ++ k.BrandName ++ " daemon")
    ++ [.deactivate] ++ spinStop e.isColorful
  match e.deactivate with
  | some err =>
    { trace := t ++ [.printf (errorPrefix e.isColorful ++ " Cannot deactivate the %v daemon\n")
        [k.BrandName]],
      durations := s.durations.set k.BrandName (),
      errorMessages := s.errorMessages.set k.BrandName (.wrap "cannot deactivate daemon: " err) }
  | none =>
    { trace := t ++ [.printf (failPrefix e.isColorful ++ " Deactivated the %v daemon\n")
        [k.BrandName]],
      durations := s.durations.set k.BrandName (),
      errorMessages := s.errorMessages }

/-- Lines 254-269: unregister from Insights. -/
def disconnectInsights (e : DisconnectEnv) (s : DisconnectState) : DisconnectState :=
  let t := s.trace ++ spinStart e.isColorful " Disconnecting from Red Hat Insights..."
    ++ [.unregisterInsights] ++ spinStop e.isColorful
  match e.unregisterInsights with
  | some err =>
    { trace := t ++ [.printf (errorPrefix e.isColorful
        ++ " Cannot disconnect from Red Hat Insights\n") []],
      durations := s.durations.set "insights" (),
      errorMessages :=
        s.errorMessages.set "insights" (.wrap "cannot disconnect from Red Hat Insights: " err) }
  | none =>
    { trace := t ++ [.print (failPrefix e.isColorful
        ++ " Disconnected from Red Hat Insights\n")],
      durations := s.durations.set "insights" (),
      errorMessages := s.errorMessages }

/-- Lines 271-286: unregister from subscription management. -/
def disconnectSubscription (e : DisconnectEnv) (s : DisconnectState) : DisconnectState :=
  let t := s.trace
    ++ spinStart e.isColorful " Disconnecting from Red Hat Subscription Management..."
    ++ [.unregister] ++ spinStop e.isColorful
  match e.unregister with
  | some err =>
    { trace := t ++ [.printf (errorPrefix e.isColorful
        ++ " Cannot disconnect from Red Hat Subscription Management\n") []],
      durations := s.durations.set "rhsm" (),
      errorMessages := s.errorMessages.set "rhsm"
        (.wrap "cannot disconnect from Red Hat Subscription Management: " err) }
  | none =>
    { trace := t ++ [.printf (failPrefix e.isColorful
        ++ " Disconnected from Red Hat Subscription Management\n") []],
      durations := s.durations.set "rhsm" (),
      errorMessages := s.errorMessages }

/-- Lines 225-286: the state after the hostname lookup gave `hostname` and
the three teardown steps have run. -/
def disconnectSteps (k : Consts) (e : DisconnectEnv) (hostname : String) : DisconnectState :=
  disconnectSubscription e (disconnectInsights e (disconnectDaemon k e
    { trace := [.osHostname,
        .printf "Disconnecting %v from %v.\nThis might take a few seconds.\n\n"
          [hostname, k.Provider]],
      durations := [],
      errorMessages := [] }))

/-- Lines 288-312: closing output and the returned value. -/
def disconnectFinish (e : DisconnectEnv) (s : DisconnectState) : Run :=
  let t := s.trace
    ++ [.printf "\nManage your Red Hat connector systems: https://red.ht/connector\n" []]
    ++ debugTable e.debugLevel s.durations
  if s.errorMessages.len > 0 then
    ⟨t ++ [.println,
        .printf "The following errors were encountered during disconnect:\n\n" [],
        .errorTable (s.errorMessages.map (fun kv => (kv.1, kv.2.Error)))],
      .exit (.text "") 1⟩
  else
    ⟨t, .nil⟩

/-- The `Action` of the `disconnect` command (lines 225-313). -/
def disconnect (k : Consts) (e : DisconnectEnv) : Run :=
  match e.hostname with
  | .error err => ⟨[.osHostname], .exit (.err err) 1⟩
  | .ok hostname => disconnectFinish e (disconnectSteps k e hostname)

/-! ## status (lines 339-401) -/

/-- Results of everything the status action reads or calls. -/
structure StatusEnv where
  isColorful : Bool
  hostname : Except GoError String
  getConsumerUUID : Except GoError String
  insightsIsRegistered : Bool × Option GoError
  /-- Error of `systemd.NewSystemConnection()`, if any -/
  newSystemConnection : Option GoError
  /-- Result of `conn.GetUnitProperties(unitName)` -/
  getUnitProperties : String → Except GoError (GoMap DBusValue)

/-- Lines 351-355: the subscription line. -/
def subscriptionLine (isColorful : Bool) (uuid : String) : Event :=
  if uuid = "" then
    .printf (failPrefix isColorful ++ " Not connected to Red Hat Subscription Management\n") []
  else
    .printf (successPrefix isColorful ++ " Connected to Red Hat Subscription Management\n") []

/-- Lines 368-376: the Insights line for the pair `insightsIsRegistered`
returned. -/
def insightsLine (isColorful : Bool) (r : Bool × Option GoError) : Event :=
  if r.1 then
    .print (successPrefix isColorful ++ " Connected to Red Hat Insights\n")
  else
    match r.2 with
    | none => .print (failPrefix isColorful ++ " Not connected to Red Hat Insights\n")
    | some err =>
      .printf (errorPrefix isColorful ++ " Cannot execute insights-client: %v\n") [err.Error]

/-- Lines 392-396: the daemon line for the `ActiveState` string. -/
def daemonLine (k : Consts) (isColorful : Bool) (activeState : String) : Event :=
  if activeState = "active" then
    .printf (successPrefix isColorful ++ " The %v daemon is active\n") [k.BrandName]
  else
    .printf (failPrefix isColorful ++ " The %v daemon is inactive\n") [k.BrandName]

/-- Lines 378-400: the daemon state query and the closing output. -/
def statusDaemon (k : Consts) (e : StatusEnv) : Run :=
  match e.newSystemConnection with
  | some err => ⟨[.newSystemConnection], .exit (.err err) 1⟩
  | none =>
    let unitName := k.ShortName ++ "d.service"
    let t : List Event := [.newSystemConnection, .getUnitProperties unitName]
    match e.getUnitProperties unitName with
    | .error err => ⟨t ++ [.connClose], .exit (.err err) 1⟩
    | .ok properties =>
      match properties.get? "ActiveState" with
      | some (.str activeState) =>
        ⟨t ++ [daemonLine k e.isColorful activeState,
            .printf "\nManage your Red Hat connector systems: https://red.ht/connector\n" [],
            .connClose], .nil⟩
      | _ => ⟨t ++ [.connClose], .panicked⟩

/-- The `Action` of the `status` command (lines 339-401). -/
def status (k : Consts) (e : StatusEnv) : Run :=
  match e.hostname with
  | .error err => ⟨[.osHostname], .exit (.err err) 1⟩
  | .ok hostname =>
    let t0 : List Event := [.osHostname, .printf "Connection status for %v:\n\n" [hostname],
      .getConsumerUUID]
    match e.getConsumerUUID with
    | .error err => ⟨t0, .exit (.err err) 1⟩
    | .ok uuid =>
      let r := statusDaemon k e
      ⟨t0 ++ [subscriptionLine e.isColorful uuid]
        ++ spinStart e.isColorful " Checking Red Hat Insights..."
        ++ [.insightsIsRegistered] ++ spinStop e.isColorful
        ++ [insightsLine e.isColorful e.insightsIsRegistered]
        ++ r.trace, r.ret⟩

/-! ## Trace observations -/

/-- Calls into the three subsystems made by connect. -/
def Event.isConnectCall : Event → Bool
  | .getConsumerUUID => true
  | .registerActivationKey _ _ _ => true
  | .registerPassword _ _ _ => true
  | .registerInsights => true
  | .activate => true
  | _ => false

/-- The two register operations of the subscription client. -/
def Event.isRegister : Event → Bool
  | .registerActivationKey _ _ _ => true
  | .registerPassword _ _ _ => true
  | _ => false

/-- Interactive credential prompts: the prompt text and the read it
announces, for the username and for the password. -/
def Event.isPrompt : Event → Bool
  | .scanStdin => true
  | .readPassword => true
  | .print text => text == "Username: " || text == "Password: "
  | _ => false

/-- Teardown calls made by disconnect. -/
def Event.isTeardown : Event → Bool
  | .deactivate => true
  | .unregisterInsights => true
  | .unregister => true
  | _ => false

/-! ## Closed form of a connect run, used in the proofs -/

/-- Prompts and subsystem calls of connect: the events whose order and number
the properties below speak about. -/
def Event.isObserved (ev : Event) : Bool := ev.isPrompt || ev.isConnectCall

/-- The error, if any, that a subsystem call of connect returns. -/
def ConnectEnv.callError (e : ConnectEnv) : Event → Option GoError
  | .getConsumerUUID =>
    match e.getConsumerUUID with
    | .error err => some err
    | .ok _ => none
  | .registerActivationKey o ks s => e.registerActivationKey o ks s
  | .registerPassword u p s => e.registerPassword u p s
  | .registerInsights => e.registerInsights
  | .activate => e.activate
  | _ => none

/-- Calls that follow a subscription step without error. -/
def connectTail (e : ConnectEnv) : List Event :=
  .registerInsights ::
    match e.registerInsights with
    | none => [.activate]
    | some _ => []

/-- A register call and what follows it. -/
def registerThen (e : ConnectEnv) (ev : Event) : List Event :=
  ev ::
    match e.callError ev with
    | none => connectTail e
    | some _ => []

/-- The password prompt and what follows it, for the given username. -/
def passwordThen (e : ConnectEnv) (username : String) : List Event :=
  .print "Password: " :: .readPassword ::
    match e.readPassword with
    | .error _ => []
    | .ok data => registerThen e (.registerPassword username data e.server)

/-- Closed form of the prompts and calls of a connect run, in order. -/
def connectCore (e : ConnectEnv) : List Event :=
  match e.hostname with
  | .error _ => []
  | .ok _ =>
    .getConsumerUUID ::
      match e.getConsumerUUID with
      | .error _ => []
      | .ok uuid =>
        if uuid = "" then
          if e.organization = "" then
            if e.username = "" then
              .print "Username: " :: .scanStdin :: passwordThen e (trimSpace e.scannerText)
            else if e.password = "" then
              passwordThen e e.username
            else
              registerThen e (.registerPassword e.username e.password e.server)
          else
            registerThen e (.registerActivationKey e.organization e.activationKey e.server)
        else
          connectTail e

/-! ## Sample environments -/

/-- Sample values for the constants declared outside `main.go`. -/
def sampleConsts : Consts := { ShortName := "rhc", BrandName := "rhc", Provider := "Red Hat" }

/-- A connect environment in which every lookup and call succeeds, the system
is not registered and no flag is given. -/
def connectEnvBase : ConnectEnv :=
  { isColorful := false
    debugLevel := false
    hostname := .ok "host.example.com"
    getConsumerUUID := .ok ""
    username := ""
    password := ""
    organization := ""
    activationKey := []
    server := ""
    scannerText := " alice "
    readPassword := .ok "typed"
    registerActivationKey := fun _ _ _ => none
    registerPassword := fun _ _ _ => none
    registerInsights := none
    activate := none }

/-- Already registered, every later call succeeds. -/
def connectEnvRegistered : ConnectEnv :=
  { connectEnvBase with getConsumerUUID := .ok "0badc0de" }

/-- Already registered, and registerInsights returns an error. -/
def connectEnvInsightsFails : ConnectEnv :=
  { connectEnvBase with
    getConsumerUUID := .ok "0badc0de"
    registerInsights := some (.base "insights-client: exit status 1") }

/-- Not registered, username and password given by flag, registerPassword
returns an error. -/
def connectEnvRegisterFails : ConnectEnv :=
  { connectEnvBase with
    username := "alice"
    password := "secret"
    registerPassword := fun _ _ _ => some (.base "invalid credentials") }

/-- Not registered, username given by flag, no password flag, and the masked
read of the password fails. -/
def connectEnvReadFails : ConnectEnv :=
  { connectEnvBase with
    username := "alice"
    readPassword := .error (.base "inappropriate ioctl for device") }

/-- Not registered, organization and one activation key given by flag. -/
def connectEnvActivationKey : ConnectEnv :=
  { connectEnvBase with
    organization := "1234567"
    activationKey := ["key-1"] }

/-- Not registered, a password given by flag but no username. -/
def connectEnvPasswordOnly : ConnectEnv :=
  { connectEnvBase with password := "secret" }

/-- A disconnect environment in which the hostname lookup succeeds,
deactivate and unregister return errors and unregisterInsights succeeds. -/
def disconnectEnvTwoFail : DisconnectEnv :=
  { isColorful := false
    debugLevel := false
    hostname := .ok "host.example.com"
    deactivate := some (.base "unit rhcd.service not loaded")
    unregisterInsights := none
    unregister := some (.base "network unreachable") }

/-- A disconnect environment in which every call succeeds. -/
def disconnectEnvOk : DisconnectEnv :=
  { disconnectEnvTwoFail with deactivate := none, unregister := none }

/-- A status environment: registered, the Insights check fails to run, the
daemon is active. -/
def statusEnvToolMissing : StatusEnv :=
  { isColorful := false
    hostname := .ok "host.example.com"
    getConsumerUUID := .ok "0badc0de"
    insightsIsRegistered := (false, some (.base "insights-client: executable file not found"))
    newSystemConnection := none
    getUnitProperties := fun _ => .ok [("ActiveState", .str "active")] }

/-- A status environment in which the Insights check returns true together
with an error. -/
def statusEnvTrueWithError : StatusEnv :=
  { statusEnvToolMissing with
    insightsIsRegistered := (true, some (.base "insights-client: signal: killed")) }

/-- A status environment in which GetUnitProperties succeeds but the
properties hold no ActiveState entry. -/
def statusEnvNoActiveState : StatusEnv :=
  { statusEnvToolMissing with getUnitProperties := fun _ => .ok [] }

/-! ## Auxiliary lemmas -/

/-- Credential resolution as one decision tree over the flags and the password
read. -/
theorem resolveCredentials_eq (e : ConnectEnv) :
    resolveCredentials e =
      if e.organization = "" then
        if e.username = "" then
          match e.readPassword with
          | .error err =>
            ([.print "Username: ", .scanStdin, .print "Password: ", .readPassword], .error err)
          | .ok data =>
            ([.print "Username: ", .scanStdin, .print "Password: ", .readPassword,
              .printf "\n\n" []], .ok (trimSpace e.scannerText, data))
        else if e.password = "" then
          match e.readPassword with
          | .error err => ([.print "Password: ", .readPassword], .error err)
          | .ok data =>
            ([.print "Password: ", .readPassword, .printf "\n\n" []], .ok (e.username, data))
        else
          ([], .ok (e.username, e.password))
      else
        ([], .ok (e.username, e.password)) := by
  unfold resolveCredentials
  by_cases ho : e.organization = ""
  · by_cases hu : e.username = ""
    · cases hr : e.readPassword <;> simp [ho, hu, hr]
    · by_cases hp : e.password = ""
      · cases hr : e.readPassword <;> simp [ho, hu, hp, hr]
      · simp [ho, hu, hp]
  · simp [ho]

/-- Returning nil gives exit status 0. -/
@[simp]
theorem exitCode_nil : Ret.nil.exitCode = 0 := rfl

/-- Returning `cli.Exit(m, c)` gives exit status `c`. -/
@[simp]
theorem exitCode_exit (m : ExitMessage) (c : Nat) : (Ret.exit m c).exitCode = c := rfl

/-- Spinner starts are neither prompts nor subsystem calls. -/
@[simp]
theorem filter_observed_spinStart (c : Bool) (s : String) :
    (spinStart c s).filter Event.isObserved = [] := by
  cases c <;> simp [spinStart, Event.isObserved, Event.isPrompt, Event.isConnectCall]

/-- Spinner stops are neither prompts nor subsystem calls. -/
@[simp]
theorem filter_observed_spinStop (c : Bool) :
    (spinStop c).filter Event.isObserved = [] := by
  cases c <;> simp [spinStop, Event.isObserved, Event.isPrompt, Event.isConnectCall]

/-- The duration table is neither a prompt nor a subsystem call. -/
@[simp]
theorem filter_observed_debugTable (d : Bool) (m : GoMap Unit) :
    (debugTable d m).filter Event.isObserved = [] := by
  cases d <;> simp [debugTable, Event.isObserved, Event.isPrompt, Event.isConnectCall]

/-- The daemon step calls activate once; its exit status follows the result of
activate. -/
theorem connectDaemon_observed (k : Consts) (e : ConnectEnv) (d : GoMap Unit) :
    (connectDaemon k e d).trace.filter Event.isObserved = [.activate] ∧
    (connectDaemon k e d).ret.exitCode = (if e.activate = none then 0 else 1) := by
  unfold connectDaemon
  cases ha : e.activate <;>
    simp [List.filter_cons, Event.isObserved, Event.isPrompt, Event.isConnectCall, Ret.exitCode]

/-- The telemetry and daemon steps: their calls and their exit status. -/
theorem connectInsights_observed (k : Consts) (e : ConnectEnv) (d : GoMap Unit) :
    (connectInsights k e d).trace.filter Event.isObserved = connectTail e ∧
    (connectInsights k e d).ret.exitCode =
      (if e.registerInsights = none ∧ e.activate = none then 0 else 1) := by
  unfold connectInsights connectTail
  cases hi : e.registerInsights
  · have h := connectDaemon_observed k e (GoMap.set d "insights" ())
    simp [List.filter_cons, Event.isObserved, Event.isPrompt, Event.isConnectCall] at h ⊢
    simp [h.1, h.2]
  · simp [List.filter_cons, Event.isObserved, Event.isPrompt, Event.isConnectCall, Ret.exitCode]

/-- After the subscription step, activate is called exactly when
registerInsights returned no error. -/
theorem activate_mem_connectTail (e : ConnectEnv) :
    Event.activate ∈ connectTail e ↔ e.registerInsights = none := by
  unfold connectTail
  cases e.registerInsights <;> simp

/-- The prompts and calls of a connect run are given by `connectCore`, and the
exit status is 0 exactly when activate was called and returned no error. -/
theorem connect_summary (k : Consts) (e : ConnectEnv) :
    (connect k e).trace.filter Event.isObserved = connectCore e ∧
    (connect k e).ret.exitCode =
      (if Event.activate ∈ connectCore e ∧ e.activate = none then 0 else 1) := by
  have hI := fun d => connectInsights_observed k e d
  unfold connect connectCore
  cases hh : e.hostname with
  | error err => simp [Event.isObserved, Event.isPrompt, Event.isConnectCall]
  | ok h =>
    cases hu : e.getConsumerUUID with
    | error err =>
      simp [List.filter_cons, Event.isObserved, Event.isPrompt, Event.isConnectCall]
    | ok uuid =>
      by_cases hz : uuid = ""
      · by_cases ho : e.organization = ""
        · by_cases hun : e.username = ""
          · cases hr : e.readPassword with
            | error err =>
              simp [connectSubscription, resolveCredentials_eq, hz, ho, hun, hr, passwordThen,
                List.filter_cons, Event.isObserved, Event.isPrompt, Event.isConnectCall]
            | ok data =>
              cases hreg : e.registerPassword (trimSpace e.scannerText) data e.server <;>
              simp [connectSubscription, resolveCredentials_eq, registerDispatch, hz, ho, hun,
                hr, hreg, passwordThen, registerThen, ConnectEnv.callError, hI,
                activate_mem_connectTail, List.filter_cons, Event.isObserved, Event.isPrompt,
                Event.isConnectCall]
          · by_cases hp : e.password = ""
            · cases hr : e.readPassword with
              | error err =>
                simp [connectSubscription, resolveCredentials_eq, hz, ho, hun, hp, hr,
                  passwordThen, List.filter_cons, Event.isObserved, Event.isPrompt,
                  Event.isConnectCall]
              | ok data =>
                cases hreg : e.registerPassword e.username data e.server <;>
                simp [connectSubscription, resolveCredentials_eq, registerDispatch, hz, ho, hun,
                  hp, hr, hreg, passwordThen, registerThen, ConnectEnv.callError, hI,
                  activate_mem_connectTail, List.filter_cons, Event.isObserved, Event.isPrompt,
                  Event.isConnectCall]
            · cases hreg : e.registerPassword e.username e.password e.server <;>
              simp [connectSubscription, resolveCredentials_eq, registerDispatch, hz, ho, hun,
                hp, hreg, registerThen, ConnectEnv.callError, hI,
                activate_mem_connectTail, List.filter_cons, Event.isObserved, Event.isPrompt,
                Event.isConnectCall]
        · cases hreg : e.registerActivationKey e.organization e.activationKey e.server <;>
          simp [connectSubscription, resolveCredentials_eq, registerDispatch, hz, ho, hreg,
            registerThen, ConnectEnv.callError, hI, activate_mem_connectTail,
            List.filter_cons, Event.isObserved, Event.isPrompt, Event.isConnectCall]
      · simp [connectSubscription, hz, hI, activate_mem_connectTail, List.filter_cons,
          Event.isObserved, Event.isPrompt, Event.isConnectCall]

/-- A relation that only constrains events selected by `f` holds pairwise on a
trace as soon as it holds pairwise on the selected events. -/
theorem pairwise_of_filter {R : Event → Event → Prop} (f : Event → Bool)
    (h : ∀ a b, (f a = false ∨ f b = false) → R a b) (t : List Event) :
    (t.filter f).Pairwise R → t.Pairwise R := by
  induction t with
  | nil => simp
  | cons a t ih =>
    intro hp
    cases hfa : f a with
    | false =>
      rw [List.filter_cons_of_neg (by simp [hfa])] at hp
      exact List.pairwise_cons.2 ⟨fun b _ => h a b (Or.inl hfa), ih hp⟩
    | true =>
      rw [List.filter_cons_of_pos hfa] at hp
      obtain ⟨h1, h2⟩ := List.pairwise_cons.1 hp
      refine List.pairwise_cons.2 ⟨fun b hb => ?_, ih h2⟩
      cases hfb : f b with
      | false => exact h a b (Or.inr hfb)
      | true => exact h1 b (List.mem_filter.2 ⟨hb, hfb⟩)

/-- Membership of a prompt or call in the trace of connect, read off
`connectCore`. -/
theorem mem_connect_trace (k : Consts) (e : ConnectEnv) (ev : Event)
    (hev : ev.isObserved = true) : ev ∈ (connect k e).trace ↔ ev ∈ connectCore e := by
  rw [← (connect_summary k e).1, List.mem_filter]
  simp [hev]

/-- Any selection of prompts and calls from the trace of connect, read off
`connectCore`. -/
theorem filter_connect_trace (k : Consts) (e : ConnectEnv) (g : Event → Bool)
    (hg : ∀ ev, g ev = true → ev.isObserved = true) :
    (connect k e).trace.filter g = (connectCore e).filter g := by
  rw [← (connect_summary k e).1, List.filter_filter]
  congr 1
  funext ev
  cases h : g ev with
  | false => simp
  | true => simp [hg ev h]

/-- Register calls are subsystem calls. -/
theorem isObserved_of_isRegister (c : Event) (hc : c.isRegister = true) :
    c.isObserved = true := by
  cases c <;> simp_all [Event.isObserved, Event.isRegister, Event.isConnectCall]

/-- Prompts are observed events. -/
theorem isObserved_of_isPrompt (c : Event) (hc : c.isPrompt = true) :
    c.isObserved = true := by
  simp [Event.isObserved, hc]

/-- Credential resolution fails exactly when the password prompt is issued and
its read fails. -/
theorem resolveCredentials_error (e : ConnectEnv) (err : GoError) :
    (resolveCredentials e).2 = .error err ↔
      e.organization = "" ∧ (e.username = "" ∨ e.password = "") ∧
        e.readPassword = .error err := by
  rw [resolveCredentials_eq]
  by_cases ho : e.organization = ""
  · by_cases hu : e.username = ""
    · cases hr : e.readPassword <;> simp [ho, hu]
    · by_cases hp : e.password = ""
      · cases hr : e.readPassword <;> simp [ho, hu, hp]
      · simp [ho, hu, hp]
  · simp [ho]

/-- Order of prompts and calls in the closed form. -/
theorem connectCore_prompt_order (e : ConnectEnv) :
    (connectCore e).Pairwise
      (fun a b => a.isConnectCall = true → b.isPrompt = true → a = .getConsumerUUID) ∧
    (connectCore e).Pairwise (fun a b => a.isPrompt = true → b ≠ .getConsumerUUID) ∧
    ((∃ p ∈ connectCore e, p.isPrompt = true) → Event.getConsumerUUID ∈ connectCore e) := by
  unfold connectCore passwordThen registerThen connectTail
  refine ⟨?_, ?_, ?_⟩
  · repeat' split
    all_goals simp_all [Event.isConnectCall, Event.isPrompt]
  · repeat' split
    all_goals simp_all [Event.isConnectCall, Event.isPrompt]
  · repeat' split
    all_goals simp_all [Event.isConnectCall, Event.isPrompt]

/-- Spinner starts are not teardown calls. -/
@[simp]
theorem filter_teardown_spinStart (c : Bool) (s : String) :
    (spinStart c s).filter Event.isTeardown = [] := by
  cases c <;> simp [spinStart, Event.isTeardown]

/-- Spinner stops are not teardown calls. -/
@[simp]
theorem filter_teardown_spinStop (c : Bool) :
    (spinStop c).filter Event.isTeardown = [] := by
  cases c <;> simp [spinStop, Event.isTeardown]

/-- The duration table is not a teardown call. -/
@[simp]
theorem filter_teardown_debugTable (d : Bool) (m : GoMap Unit) :
    (debugTable d m).filter Event.isTeardown = [] := by
  cases d <;> simp [debugTable, Event.isTeardown]

/-- The three steps of disconnect make the three teardown calls in order. -/
theorem disconnectSteps_teardown (k : Consts) (e : DisconnectEnv) (hostname : String) :
    (disconnectSteps k e hostname).trace.filter Event.isTeardown =
      [.deactivate, .unregisterInsights, .unregister] := by
  unfold disconnectSteps disconnectSubscription disconnectInsights disconnectDaemon
  cases e.deactivate <;> cases e.unregisterInsights <;> cases e.unregister <;>
    simp [List.filter_cons, Event.isTeardown]

/-- The errors mapping is non-empty exactly when some teardown call returned
an error. -/
theorem errorMessages_len_pos (k : Consts) (e : DisconnectEnv) (hostname : String) :
    0 < (disconnectSteps k e hostname).errorMessages.len ↔
      (e.deactivate ≠ none ∨ e.unregisterInsights ≠ none ∨ e.unregister ≠ none) := by
  unfold disconnectSteps disconnectSubscription disconnectInsights disconnectDaemon
  cases e.deactivate <;> cases e.unregisterInsights <;> cases e.unregister <;>
    simp [GoMap.set, GoMap.len]

/-- Lookup in an association list with a head entry. -/
theorem lookup_cons_ite {V : Type} (key a : String) (b : V) (m : List (String × V)) :
    List.lookup key ((a, b) :: m) = if key = a then some b else List.lookup key m := by
  rw [List.lookup_cons]
  cases hb : key == a
  · have : key ≠ a := by simpa using hb
    simp [this]
  · have : key = a := by simpa using hb
    simp [this]

/-- Lookup after an assignment. -/
theorem GoMap.get?_set {V : Type} (m : GoMap V) (k key : String) (v : V) :
    (m.set k v).get? key = if key = k then some v else m.get? key := by
  unfold GoMap.set GoMap.get?
  induction m with
  | nil => simp [lookup_cons_ite]
  | cons a m ih =>
    obtain ⟨a, b⟩ := a
    by_cases hak : a = k
    · subst hak
      simp only [List.filter_cons, bne_self_eq_false, Bool.false_eq_true, if_false, ih,
        lookup_cons_ite]
      split_ifs <;> rfl
    · simp only [List.filter_cons, bne_iff_ne, ne_eq, hak, not_false_eq_true, if_true,
        List.cons_append, lookup_cons_ite, ih]
      by_cases h : key = a
      · subst h
        simp [hak]
      · simp [h]

/-- Lookup in the empty map. -/
theorem GoMap.get?_nil {V : Type} (key : String) : GoMap.get? ([] : GoMap V) key = none := rfl

/-- Keys after an assignment. -/
theorem GoMap.keys_set {V : Type} (m : GoMap V) (k : String) (v : V) :
    (m.set k v).keys = m.keys.filter (fun x => x != k) ++ [k] := by
  unfold GoMap.set GoMap.keys
  simp [List.filter_map, Function.comp_def]

/-- Assignment keeps the keys distinct. -/
theorem GoMap.nodup_keys_set {V : Type} (m : GoMap V) (k : String) (v : V)
    (h : m.keys.Nodup) : (m.set k v).keys.Nodup := by
  rw [GoMap.keys_set]
  refine List.Nodup.append (h.filter _) (by simp) ?_
  intro x hx hk
  simp at hk
  subst hk
  simp at hx

/-- The telemetry step is reached only after a subscription step that ended
without error. -/
theorem subscription_ok_of_registerInsights (e : ConnectEnv)
    (h : Event.registerInsights ∈ connectCore e) :
    ∃ hostname uuid durations, e.hostname = .ok hostname ∧ e.getConsumerUUID = .ok uuid ∧
      (connectSubscription e uuid).2 = .ok durations := by
  unfold connectCore at h
  cases hh : e.hostname with
  | error err => simp [hh] at h
  | ok hostname =>
    cases hu : e.getConsumerUUID with
    | error err => simp [hh, hu] at h
    | ok uuid =>
      refine ⟨hostname, uuid, GoMap.set [] "rhsm" (), rfl, rfl, ?_⟩
      simp only [hh, hu] at h
      by_cases hz : uuid = ""
      · by_cases ho : e.organization = ""
        · by_cases hun : e.username = ""
          · cases hr : e.readPassword with
            | error err => simp [hz, ho, hun, hr, passwordThen] at h
            | ok data =>
              cases hreg : e.registerPassword (trimSpace e.scannerText) data e.server with
              | some err =>
                simp [hz, ho, hun, hr, hreg, passwordThen, registerThen,
                  ConnectEnv.callError] at h
              | none =>
                simp [connectSubscription, resolveCredentials_eq, registerDispatch, hz, ho,
                  hun, hr, hreg]
          · by_cases hp : e.password = ""
            · cases hr : e.readPassword with
              | error err => simp [hz, ho, hun, hp, hr, passwordThen] at h
              | ok data =>
                cases hreg : e.registerPassword e.username data e.server with
                | some err =>
                  simp [hz, ho, hun, hp, hr, hreg, passwordThen, registerThen,
                    ConnectEnv.callError] at h
                | none =>
                  simp [connectSubscription, resolveCredentials_eq, registerDispatch, hz, ho,
                    hun, hp, hr, hreg]
            · cases hreg : e.registerPassword e.username e.password e.server with
              | some err =>
                simp [hz, ho, hun, hp, hreg, registerThen, ConnectEnv.callError] at h
              | none =>
                simp [connectSubscription, resolveCredentials_eq, registerDispatch, hz, ho,
                  hun, hp, hreg]
        · cases hreg : e.registerActivationKey e.organization e.activationKey e.server with
          | some err => simp [hz, ho, hreg, registerThen, ConnectEnv.callError] at h
          | none =>
            simp [connectSubscription, resolveCredentials_eq, registerDispatch, hz, ho, hreg]
      · simp [connectSubscription, hz]

/-- A subsystem call that is followed by another one returned no error. -/
theorem fail_fast_calls (k : Consts) (e : ConnectEnv) :
    (connect k e).trace.Pairwise
      (fun a b => a.isConnectCall = true → b.isConnectCall = true → e.callError a = none) := by
  refine pairwise_of_filter Event.isObserved ?_ _ ?_
  · rintro a b (h | h) <;> intro ha hb <;> simp_all [Event.isObserved]
  · rw [(connect_summary k e).1]
    unfold connectCore passwordThen registerThen connectTail
    repeat' split
    all_goals simp_all [Event.isConnectCall, ConnectEnv.callError]

/-- A password read that is followed by a subsystem call succeeded. -/
theorem fail_fast_read (k : Consts) (e : ConnectEnv) :
    (connect k e).trace.Pairwise
      (fun a b => a = Event.readPassword → b.isConnectCall = true →
        ∃ data, e.readPassword = .ok data) := by
  refine pairwise_of_filter Event.isObserved ?_ _ ?_
  · rintro a b (h | h) <;> intro ha hb
    · subst ha
      simp [Event.isObserved, Event.isPrompt] at h
    · simp_all [Event.isObserved]
  · rw [(connect_summary k e).1]
    unfold connectCore passwordThen registerThen connectTail
    repeat' split
    all_goals simp_all [Event.isConnectCall, ConnectEnv.callError]

/-- An error from getConsumerUUID ends the run. -/
theorem fail_fast_uuid (k : Consts) (e : ConnectEnv) :
    ∀ err, e.getConsumerUUID = .error err →
      (∀ c ∈ (connect k e).trace, c.isRegister = false) ∧
      Event.registerInsights ∉ (connect k e).trace ∧ Event.activate ∉ (connect k e).trace ∧
      (connect k e).ret.exitCode = 1 := by
  have hexit := (connect_summary k e).2
  have hmem := mem_connect_trace k e
  intro err herr
  refine ⟨fun c hc => ?_, ?_⟩
  · cases hr : c.isRegister with
    | false => rfl
    | true =>
      rw [hmem c (isObserved_of_isRegister c hr)] at hc
      clear hmem hexit
      unfold connectCore at hc
      cases hh : e.hostname <;> simp [hh, herr] at hc
      subst hc
      simp [Event.isRegister] at hr
  · rw [hmem _ (by rfl), hmem _ (by rfl), hexit]
    clear hmem hexit
    unfold connectCore
    cases hh : e.hostname <;> simp [hh, herr]

/-- An error from the register call ends the run. -/
theorem fail_fast_register (k : Consts) (e : ConnectEnv) :
    ∀ c ∈ (connect k e).trace, c.isRegister = true → e.callError c ≠ none →
      Event.registerInsights ∉ (connect k e).trace ∧ Event.activate ∉ (connect k e).trace ∧
      (connect k e).ret.exitCode = 1 := by
  have hexit := (connect_summary k e).2
  have hmem := mem_connect_trace k e
  intro c hc hr hne
  rw [hmem c (isObserved_of_isRegister c hr)] at hc
  rw [hmem _ (by rfl), hmem _ (by rfl), hexit]
  clear hmem hexit
  cases c <;> simp [Event.isRegister] at hr
  all_goals revert hc
  all_goals unfold connectCore passwordThen registerThen connectTail
  all_goals repeat' split
  all_goals intro hc
  all_goals simp at hc
  all_goals simp_all [ConnectEnv.callError]

/-- A failed password read ends the run. -/
theorem fail_fast_read_error (k : Consts) (e : ConnectEnv) :
    ∀ err, Event.readPassword ∈ (connect k e).trace → e.readPassword = .error err →
      (∀ c ∈ (connect k e).trace, c.isRegister = false) ∧
      Event.registerInsights ∉ (connect k e).trace ∧ Event.activate ∉ (connect k e).trace ∧
      (connect k e).ret.exitCode = 1 := by
  have hexit := (connect_summary k e).2
  have hmem := mem_connect_trace k e
  intro err hc herr
  rw [hmem _ (by rfl)] at hc
  refine ⟨fun c hcm => ?_, ?_⟩
  · cases hr : c.isRegister with
    | false => rfl
    | true =>
      rw [hmem c (isObserved_of_isRegister c hr)] at hcm
      clear hmem hexit
      exfalso
      cases c <;> simp [Event.isRegister] at hr
      all_goals revert hc hcm
      all_goals unfold connectCore passwordThen registerThen connectTail
      all_goals repeat' split
      all_goals intro hc hcm
      all_goals simp_all
  · rw [hmem _ (by rfl), hmem _ (by rfl), hexit]
    clear hmem hexit
    revert hc
    unfold connectCore passwordThen registerThen connectTail
    repeat' split
    all_goals intro hc
    all_goals simp_all

/-- An error from registerInsights ends the run. -/
theorem fail_fast_insights (k : Consts) (e : ConnectEnv) :
    ∀ err, e.registerInsights = some err →
      Event.activate ∉ (connect k e).trace ∧ (connect k e).ret.exitCode = 1 := by
  have hexit := (connect_summary k e).2
  have hmem := mem_connect_trace k e
  intro err herr
  rw [hmem _ (by rfl), hexit]
  clear hmem hexit
  unfold connectCore passwordThen registerThen connectTail
  repeat' split
  all_goals simp_all [ConnectEnv.callError]

/-! ## Claims -/

/-- C1. Connect is fail-fast, for every combination of results. In the trace
of every run a subsystem call that is followed by another subsystem call
returned no error, and a password read that is followed by a subsystem call
succeeded. When the subscription step fails, that is when getConsumerUUID
returns an error, when the register call that was made returns an error, or
when the password read that was made fails, registerInsights and activate are
not called and the exit code is 1; when registerInsights returns an error,
activate is not called and the exit code is 1. registerInsights is called
only after a subscription step that ended without error, activate only after
registerInsights returned no error, and the exit code is 0 exactly when
activate was called and returned no error, and is 1 otherwise. -/
theorem connect_fail_fast (k : Consts) (e : ConnectEnv) :
    (connect k e).trace.Pairwise
      (fun a b => a.isConnectCall = true → b.isConnectCall = true → e.callError a = none) ∧
    (connect k e).trace.Pairwise
      (fun a b => a = Event.readPassword → b.isConnectCall = true →
        ∃ data, e.readPassword = .ok data) ∧
    (∀ err, e.getConsumerUUID = .error err →
      (∀ c ∈ (connect k e).trace, c.isRegister = false) ∧
      Event.registerInsights ∉ (connect k e).trace ∧ Event.activate ∉ (connect k e).trace ∧
      (connect k e).ret.exitCode = 1) ∧
    (∀ c ∈ (connect k e).trace, c.isRegister = true → e.callError c ≠ none →
      Event.registerInsights ∉ (connect k e).trace ∧ Event.activate ∉ (connect k e).trace ∧
      (connect k e).ret.exitCode = 1) ∧
    (∀ err, Event.readPassword ∈ (connect k e).trace → e.readPassword = .error err →
      (∀ c ∈ (connect k e).trace, c.isRegister = false) ∧
      Event.registerInsights ∉ (connect k e).trace ∧ Event.activate ∉ (connect k e).trace ∧
      (connect k e).ret.exitCode = 1) ∧
    (∀ err, e.registerInsights = some err →
      Event.activate ∉ (connect k e).trace ∧ (connect k e).ret.exitCode = 1) ∧
    (Event.registerInsights ∈ (connect k e).trace →
      ∃ hostname uuid durations, e.hostname = .ok hostname ∧ e.getConsumerUUID = .ok uuid ∧
        (connectSubscription e uuid).2 = .ok durations) ∧
    (Event.activate ∈ (connect k e).trace →
      Event.registerInsights ∈ (connect k e).trace ∧ e.registerInsights = none) ∧
    ((connect k e).ret.exitCode = 0 ↔
      Event.activate ∈ (connect k e).trace ∧ e.activate = none) ∧
    ((connect k e).ret.exitCode = 0 ∨ (connect k e).ret.exitCode = 1) := by
  have hexit := (connect_summary k e).2
  have hmem := mem_connect_trace k e
  refine ⟨fail_fast_calls k e, fail_fast_read k e, fail_fast_uuid k e, fail_fast_register k e,
    fail_fast_read_error k e, fail_fast_insights k e, ?_, ?_, ?_, ?_⟩
  · intro h
    rw [hmem _ (by rfl)] at h
    exact subscription_ok_of_registerInsights e h
  · rw [hmem _ (by rfl), hmem _ (by rfl)]
    clear hmem hexit
    unfold connectCore passwordThen registerThen connectTail
    repeat' split
    all_goals simp_all [ConnectEnv.callError]
  · rw [hmem _ (by rfl), hexit]
    split <;> simp_all
  · rw [hexit]
    split <;> simp

/-- C1 at a run whose registerPassword call returns an error, and at a run
whose password read fails: registerInsights and activate are not called and
the exit code is 1. -/
theorem connect_fail_fast_witness :
    (Event.registerPassword "alice" "secret" "" ∈
      (connect sampleConsts connectEnvRegisterFails).trace ∧
    Event.registerInsights ∉ (connect sampleConsts connectEnvRegisterFails).trace ∧
    Event.activate ∉ (connect sampleConsts connectEnvRegisterFails).trace ∧
    (connect sampleConsts connectEnvRegisterFails).ret.exitCode = 1) ∧
    (Event.readPassword ∈ (connect sampleConsts connectEnvReadFails).trace ∧
    Event.registerInsights ∉ (connect sampleConsts connectEnvReadFails).trace ∧
    Event.activate ∉ (connect sampleConsts connectEnvReadFails).trace ∧
    (connect sampleConsts connectEnvReadFails).ret.exitCode = 1) :=
  ⟨⟨by decide, (connect_fail_fast sampleConsts connectEnvRegisterFails).2.2.2.1
    (.registerPassword "alice" "secret" "") (by decide) rfl (by decide)⟩,
   ⟨by decide, ((connect_fail_fast sampleConsts connectEnvReadFails).2.2.2.2.1
    (.base "inappropriate ioctl for device") (by decide) rfl).2⟩⟩

/-- C2 (amended). When the hostname lookup succeeds and getConsumerUUID
returns a non-empty id, then for all flag values the run has no register call
and no prompt, prints the already-connected line, and its subsystem calls are
getConsumerUUID, registerInsights and, only when registerInsights returned no
error, activate; when registerInsights and activate both return no error the
action returns nil (exit 0). -/
theorem connect_already_registered (k : Consts) (e : ConnectEnv) (hostname uuid : String)
    (hh : e.hostname = .ok hostname) (hu : e.getConsumerUUID = .ok uuid) (hne : uuid ≠ "") :
    (∀ ev ∈ (connect k e).trace, ev.isRegister = false ∧ ev.isPrompt = false) ∧
    Event.printf (successPrefix e.isColorful
      ++ " This system is already connected to Red Hat Subscription Management\n") []
      ∈ (connect k e).trace ∧
    (connect k e).trace.filter Event.isConnectCall =
      .getConsumerUUID :: .registerInsights ::
        (match e.registerInsights with
          | none => [.activate]
          | some _ => []) ∧
    (e.registerInsights = none → e.activate = none →
      (connect k e).ret = .nil ∧ (connect k e).ret.exitCode = 0) := by
  have hcore : connectCore e = .getConsumerUUID :: connectTail e := by
    simp [connectCore, hh, hu, hne]
  refine ⟨fun ev hev => ?_, ?_, ?_, ?_⟩
  · have h1 : ev ∉ (connect k e).trace.filter Event.isRegister := by
      rw [filter_connect_trace k e _ (fun c hc => by
        cases c <;> simp_all [Event.isObserved, Event.isRegister, Event.isConnectCall]), hcore]
      unfold connectTail
      cases e.registerInsights <;> simp [List.filter_cons, Event.isRegister]
    have h2 : ev ∉ (connect k e).trace.filter Event.isPrompt := by
      rw [filter_connect_trace k e _ (fun c hc => by simp [Event.isObserved, hc]), hcore]
      unfold connectTail
      cases e.registerInsights <;> simp [List.filter_cons, Event.isPrompt]
    simp only [List.mem_filter, hev, true_and, Bool.not_eq_true] at h1 h2
    exact ⟨h1, h2⟩
  · simp [connect, hh, hu, connectSubscription, hne]
  · rw [filter_connect_trace k e _ (fun c hc => by simp [Event.isObserved, hc]), hcore]
    unfold connectTail
    cases e.registerInsights <;> simp [List.filter_cons, Event.isConnectCall]
  · intro hi ha
    simp [connect, hh, hu, connectSubscription, hne, connectInsights, hi, connectDaemon, ha]

/-- C2 as stated fails: on a registered system whose registerInsights call
returns an error, registerInsights is called and activate is not. -/
theorem connect_already_registered_counterexample :
    connectEnvInsightsFails.hostname = .ok "host.example.com" ∧
    connectEnvInsightsFails.getConsumerUUID = .ok "0badc0de" ∧
    Event.registerInsights ∈ (connect sampleConsts connectEnvInsightsFails).trace ∧
    Event.activate ∉ (connect sampleConsts connectEnvInsightsFails).trace :=
  ⟨rfl, rfl, by decide, by decide⟩

/-- C2 (amended) at a registered system where every call succeeds. -/
theorem connect_already_registered_witness :
    (connect sampleConsts connectEnvRegistered).trace.filter Event.isConnectCall =
      [.getConsumerUUID, .registerInsights, .activate] ∧
    (connect sampleConsts connectEnvRegistered).ret = .nil :=
  ⟨(connect_already_registered sampleConsts connectEnvRegistered "host.example.com" "0badc0de"
      rfl rfl (by decide)).2.2.1,
    ((connect_already_registered sampleConsts connectEnvRegistered "host.example.com" "0badc0de"
      rfl rfl (by decide)).2.2.2 rfl rfl).1⟩

/-- C3. Disconnect is best-effort: once the hostname lookup has succeeded,
whatever deactivate, unregisterInsights and unregister return, the teardown
calls of the run are exactly deactivate, unregisterInsights, unregister, each
once and in this order. -/
theorem disconnect_best_effort (k : Consts) (e : DisconnectEnv) (hostname : String)
    (hh : e.hostname = .ok hostname) :
    (disconnect k e).trace.filter Event.isTeardown =
      [.deactivate, .unregisterInsights, .unregister] := by
  have h := disconnectSteps_teardown k e hostname
  simp only [disconnect, hh, disconnectFinish]
  split <;> simp [List.filter_cons, Event.isTeardown, h]

/-- C3 at a run where deactivate and unregister fail. -/
theorem disconnect_best_effort_witness :
    (disconnect sampleConsts disconnectEnvTwoFail).trace.filter Event.isTeardown =
      [.deactivate, .unregisterInsights, .unregister] :=
  disconnect_best_effort sampleConsts disconnectEnvTwoFail "host.example.com" rfl

/-- C4. Disconnect exit code: once the hostname lookup has succeeded, the
action returns exit code 1 exactly when the errors mapping accumulated by the
three steps is non-empty, which is exactly when at least one of deactivate,
unregisterInsights and unregister returned an error; otherwise it returns
nil, exit code 0. -/
theorem disconnect_exit_code (k : Consts) (e : DisconnectEnv) (hostname : String)
    (hh : e.hostname = .ok hostname) :
    ((disconnect k e).ret.exitCode = 1 ↔
      0 < (disconnectSteps k e hostname).errorMessages.len) ∧
    (0 < (disconnectSteps k e hostname).errorMessages.len ↔
      (e.deactivate ≠ none ∨ e.unregisterInsights ≠ none ∨ e.unregister ≠ none)) ∧
    (e.deactivate = none → e.unregisterInsights = none → e.unregister = none →
      (disconnect k e).ret = .nil ∧ (disconnect k e).ret.exitCode = 0) := by
  have hlen := errorMessages_len_pos k e hostname
  refine ⟨?_, hlen, fun h1 h2 h3 => ?_⟩
  · simp only [disconnect, hh, disconnectFinish]
    split <;> simp_all
  · have h0 : ¬ 0 < (disconnectSteps k e hostname).errorMessages.len := by
      rw [hlen]
      simp [h1, h2, h3]
    simp only [disconnect, hh, disconnectFinish]
    simp [h0]

/-- C4 at a run with two failing calls and at a run with none. -/
theorem disconnect_exit_code_witness :
    (disconnect sampleConsts disconnectEnvTwoFail).ret.exitCode = 1 ∧
    (disconnect sampleConsts disconnectEnvOk).ret = .nil :=
  ⟨(disconnect_exit_code sampleConsts disconnectEnvTwoFail "host.example.com" rfl).1.2
      (by decide),
    ((disconnect_exit_code sampleConsts disconnectEnvOk "host.example.com" rfl).2.2
      rfl rfl rfl).1⟩

/-- C5. Disconnect error accumulation, for a BrandName different from
"insights" and "rhsm": once the hostname lookup has succeeded, the action
finishes from the state left by the three steps, and in that state the errors
mapping has, under BrandName, "insights" and "rhsm", an entry exactly for the
calls among deactivate, unregisterInsights and unregister that returned an
error, the entry wrapping that error; it has no other key. -/
theorem disconnect_error_accumulation (k : Consts) (e : DisconnectEnv) (hostname : String)
    (hh : e.hostname = .ok hostname)
    (hb1 : k.BrandName ≠ "insights") (hb2 : k.BrandName ≠ "rhsm") :
    disconnect k e = disconnectFinish e (disconnectSteps k e hostname) ∧
    (disconnectSteps k e hostname).errorMessages.get? k.BrandName =
      e.deactivate.map (.wrap "cannot deactivate daemon: ") ∧
    (disconnectSteps k e hostname).errorMessages.get? "insights" =
      e.unregisterInsights.map (.wrap "cannot disconnect from Red Hat Insights: ") ∧
    (disconnectSteps k e hostname).errorMessages.get? "rhsm" =
      e.unregister.map (.wrap "cannot disconnect from Red Hat Subscription Management: ") ∧
    (∀ key, key ≠ k.BrandName → key ≠ "insights" → key ≠ "rhsm" →
      (disconnectSteps k e hostname).errorMessages.get? key = none) ∧
    (disconnectSteps k e hostname).errorMessages.keys.Nodup := by
  have hb3 : ¬ "insights" = k.BrandName := fun h => hb1 h.symm
  have hb4 : ¬ "rhsm" = k.BrandName := fun h => hb2 h.symm
  refine ⟨by simp [disconnect, hh], ?_, ?_, ?_, ?_, ?_⟩
  all_goals unfold disconnectSteps disconnectSubscription disconnectInsights disconnectDaemon
  all_goals cases e.deactivate <;> cases e.unregisterInsights <;> cases e.unregister
  all_goals
    first
    | (simp [GoMap.get?_set, GoMap.get?_nil, hb1, hb2, hb3, hb4]; done)
    | (intro key h1 h2 h3
       simp [GoMap.get?_set, GoMap.get?_nil, h1, h2, h3])
    | (repeat' apply GoMap.nodup_keys_set
       simp [GoMap.keys])

/-- C5 at a run where deactivate and unregister fail and unregisterInsights
succeeds. -/
theorem disconnect_error_accumulation_witness :
    (disconnectSteps sampleConsts disconnectEnvTwoFail "host.example.com").errorMessages.get?
        "rhc" = some (.wrap "cannot deactivate daemon: " (.base "unit rhcd.service not loaded")) ∧
    (disconnectSteps sampleConsts disconnectEnvTwoFail "host.example.com").errorMessages.get?
        "insights" = none ∧
    (disconnectSteps sampleConsts disconnectEnvTwoFail "host.example.com").errorMessages.get?
        "rhsm" = some (.wrap "cannot disconnect from Red Hat Subscription Management: "
          (.base "network unreachable")) :=
  ⟨(disconnect_error_accumulation sampleConsts disconnectEnvTwoFail "host.example.com" rfl
      (by decide) (by decide)).2.1,
    (disconnect_error_accumulation sampleConsts disconnectEnvTwoFail "host.example.com" rfl
      (by decide) (by decide)).2.2.1,
    (disconnect_error_accumulation sampleConsts disconnectEnvTwoFail "host.example.com" rfl
      (by decide) (by decide)).2.2.2.1⟩

/-- C6 (amended). Status independence: when the hostname lookup and
getConsumerUUID succeed, the result r of insightsIsRegistered changes nothing
but the one Insights line. For every r the trace starts with the hostname
lookup, the header, the getConsumerUUID call and the subscription line (not
connected for an empty id, connected otherwise), then holds the check and its
line, then one and the same daemon part, and the action ends with one and
the same value. The daemon part always starts with the system bus
connection. When the connection or GetUnitProperties returns an error the
action exits with that error and code 1; when the properties hold an
ActiveState string the daemon line (active for "active", inactive otherwise)
and the closing line are printed and the action returns nil, exit code 0. -/
theorem status_independent (k : Consts) (e : StatusEnv) (hostname uuid : String)
    (hh : e.hostname = .ok hostname) (hu : e.getConsumerUUID = .ok uuid) :
    ∃ (daemonPart : List Event) (result : Ret),
      (∀ r : Bool × Option GoError,
        (status k { e with insightsIsRegistered := r }).trace =
          [.osHostname, .printf "Connection status for %v:\n\n" [hostname], .getConsumerUUID,
            (if uuid = "" then
              .printf (failPrefix e.isColorful
                ++ " Not connected to Red Hat Subscription Management\n") []
            else
              .printf (successPrefix e.isColorful
                ++ " Connected to Red Hat Subscription Management\n") [])]
          ++ spinStart e.isColorful " Checking Red Hat Insights..."
          ++ [.insightsIsRegistered] ++ spinStop e.isColorful
          ++ [if r.1 then
                .print (successPrefix e.isColorful ++ " Connected to Red Hat Insights\n")
              else
                match r.2 with
                | none =>
                  .print (failPrefix e.isColorful ++ " Not connected to Red Hat Insights\n")
                | some err =>
                  .printf (errorPrefix e.isColorful ++ " Cannot execute insights-client: %v\n")
                    [err.Error]]
          ++ daemonPart ∧
        (status k { e with insightsIsRegistered := r }).ret = result) ∧
      daemonPart.head? = some .newSystemConnection ∧
      (∀ err, e.newSystemConnection = some err →
        daemonPart = [.newSystemConnection] ∧ result = .exit (.err err) 1) ∧
      (∀ err, e.newSystemConnection = none →
        e.getUnitProperties (k.ShortName ++ "d.service") = .error err →
          daemonPart = [.newSystemConnection, .getUnitProperties (k.ShortName ++ "d.service"),
            .connClose] ∧
          result = .exit (.err err) 1) ∧
      (∀ properties activeState, e.newSystemConnection = none →
        e.getUnitProperties (k.ShortName ++ "d.service") = .ok properties →
        properties.get? "ActiveState" = some (.str activeState) →
          daemonPart = [.newSystemConnection, .getUnitProperties (k.ShortName ++ "d.service"),
            (if activeState = "active" then
              .printf (successPrefix e.isColorful ++ " The %v daemon is active\n")
                [k.BrandName]
            else
              .printf (failPrefix e.isColorful ++ " The %v daemon is inactive\n")
                [k.BrandName]),
            .printf "\nManage your Red Hat connector systems: https://red.ht/connector\n" [],
            .connClose] ∧
          result = .nil ∧ result.exitCode = 0) := by
  refine ⟨(statusDaemon k e).trace, (statusDaemon k e).ret, fun r => ⟨?_, ?_⟩, ?_, ?_, ?_, ?_⟩
  · simp only [status, hh, hu, subscriptionLine, insightsLine]
    by_cases hz : uuid = "" <;> cases h1 : r.1 <;> cases h2 : r.2 <;> simp [hz] <;> rfl
  · simp [status, hh, hu]
    rfl
  · unfold statusDaemon
    cases e.newSystemConnection with
    | some err => rfl
    | none =>
      simp only
      repeat' split
      all_goals rfl
  · intro err hc
    simp [statusDaemon, hc]
  · intro err hc hp
    simp [statusDaemon, hc, hp]
  · intro properties activeState hc hp hs
    simp [statusDaemon, hc, hp, hs, daemonLine]

/-- C6 as stated fails: with the hostname lookup, getConsumerUUID, the bus
connection and GetUnitProperties all succeeding, properties without an
ActiveState string make the action panic instead of returning exit code 0. -/
theorem status_independent_counterexample :
    statusEnvNoActiveState.hostname = .ok "host.example.com" ∧
    statusEnvNoActiveState.getConsumerUUID = .ok "0badc0de" ∧
    statusEnvNoActiveState.newSystemConnection = none ∧
    statusEnvNoActiveState.getUnitProperties "rhcd.service" = .ok [] ∧
    (status sampleConsts statusEnvNoActiveState).trace =
      [.osHostname, .printf "Connection status for %v:\n\n" ["host.example.com"],
        .getConsumerUUID, .printf "✓ Connected to Red Hat Subscription Management\n" [],
        .insightsIsRegistered,
        .printf "! Cannot execute insights-client: %v\n"
          ["insights-client: executable file not found"],
        .newSystemConnection, .getUnitProperties "rhcd.service", .connClose] ∧
    (status sampleConsts statusEnvNoActiveState).ret = .panicked ∧
    (status sampleConsts statusEnvNoActiveState).ret.exitCode ≠ 0 :=
  ⟨rfl, rfl, rfl, rfl, by decide, by decide, by decide⟩

/-- C6 (amended) at a run whose Insights check fails to execute, on a
registered system with an active daemon: the whole trace, and the nil
result. -/
theorem status_independent_witness :
    (status sampleConsts statusEnvToolMissing).trace =
      [.osHostname, .printf "Connection status for %v:\n\n" ["host.example.com"],
        .getConsumerUUID, .printf "✓ Connected to Red Hat Subscription Management\n" [],
        .insightsIsRegistered,
        .printf "! Cannot execute insights-client: %v\n"
          ["insights-client: executable file not found"],
        .newSystemConnection, .getUnitProperties "rhcd.service",
        .printf "✓ The %v daemon is active\n" ["rhc"],
        .printf "\nManage your Red Hat connector systems: https://red.ht/connector\n" [],
        .connClose] ∧
    (status sampleConsts statusEnvToolMissing).ret = .nil := by
  obtain ⟨daemonPart, result, hall, _, _, _, hok⟩ :=
    status_independent sampleConsts statusEnvToolMissing "host.example.com" "0badc0de" rfl rfl
  obtain ⟨hd, hr, _⟩ := hok [("ActiveState", .str "active")] "active" rfl rfl rfl
  obtain ⟨ht, hret⟩ := hall (false, some (.base "insights-client: executable file not found"))
  subst hd hr
  exact ⟨ht, hret⟩

/-- C7 (amended). When the hostname lookup and getConsumerUUID succeed, the
status action prints exactly one Insights line, right after the check: the
connected line whenever registered is true, whatever err is; the
not-connected line when registered is false and err is nil; the
cannot-execute line carrying the error text when registered is false and err
is non-nil. -/
theorem status_insights_line (k : Consts) (e : StatusEnv) (hostname uuid : String)
    (hh : e.hostname = .ok hostname) (hu : e.getConsumerUUID = .ok uuid) :
    (status k e).trace =
      [.osHostname, .printf "Connection status for %v:\n\n" [hostname], .getConsumerUUID,
        subscriptionLine e.isColorful uuid]
      ++ spinStart e.isColorful " Checking Red Hat Insights..."
      ++ [.insightsIsRegistered] ++ spinStop e.isColorful
      ++ [insightsLine e.isColorful e.insightsIsRegistered] ++ (statusDaemon k e).trace ∧
    (∀ err, e.insightsIsRegistered = (true, err) →
      insightsLine e.isColorful e.insightsIsRegistered =
        .print (successPrefix e.isColorful ++ " Connected to Red Hat Insights\n")) ∧
    (e.insightsIsRegistered = (false, none) →
      insightsLine e.isColorful e.insightsIsRegistered =
        .print (failPrefix e.isColorful ++ " Not connected to Red Hat Insights\n")) ∧
    (∀ err, e.insightsIsRegistered = (false, some err) →
      insightsLine e.isColorful e.insightsIsRegistered =
        .printf (errorPrefix e.isColorful ++ " Cannot execute insights-client: %v\n")
          [err.Error]) := by
  refine ⟨by simp [status, hh, hu], ?_, ?_, ?_⟩
  · intro err h
    simp [insightsLine, h]
  · intro h
    simp [insightsLine, h]
  · intro err h
    simp [insightsLine, h]

/-- C7 as stated fails: when the Insights check returns true together with an
error, the connected line is printed and the error text is not. -/
theorem status_insights_line_counterexample :
    statusEnvTrueWithError.hostname = .ok "host.example.com" ∧
    statusEnvTrueWithError.getConsumerUUID = .ok "0badc0de" ∧
    statusEnvTrueWithError.insightsIsRegistered =
      (true, some (.base "insights-client: signal: killed")) ∧
    Event.print "✓ Connected to Red Hat Insights\n" ∈
      (status sampleConsts statusEnvTrueWithError).trace ∧
    Event.printf "! Cannot execute insights-client: %v\n" ["insights-client: signal: killed"] ∉
      (status sampleConsts statusEnvTrueWithError).trace :=
  ⟨rfl, rfl, rfl, by decide, by decide⟩

/-- C7 (amended) at a run whose Insights check returns false with an error. -/
theorem status_insights_line_witness :
    insightsLine false statusEnvToolMissing.insightsIsRegistered =
      .printf "! Cannot execute insights-client: %v\n"
        ["insights-client: executable file not found"] :=
  (status_insights_line sampleConsts statusEnvToolMissing "host.example.com" "0badc0de"
    rfl rfl).2.2.2 (.base "insights-client: executable file not found") rfl

/-- C8 (amended). When the hostname lookup succeeds and getConsumerUUID
returns the empty id: with a non-empty organization flag the only register
call of the run is one registerActivationKey with the organization,
activation-key and server flag values, and no prompt is issued; with an empty
organization flag, when credential resolution yields a username and password
the only register call is one registerPassword with them and the server flag
value, and when it yields an error, which it does exactly when the password
prompt is issued and its read fails, no register call is made and the action
exits with that error and code 1. -/
theorem connect_register_dispatch (k : Consts) (e : ConnectEnv) (hostname : String)
    (hh : e.hostname = .ok hostname) (hu : e.getConsumerUUID = .ok "") :
    (e.organization ≠ "" →
      (connect k e).trace.filter Event.isRegister =
        [.registerActivationKey e.organization e.activationKey e.server] ∧
      ∀ ev ∈ (connect k e).trace, ev.isPrompt = false) ∧
    (e.organization = "" → ∀ username password,
      (resolveCredentials e).2 = .ok (username, password) →
        (connect k e).trace.filter Event.isRegister =
          [.registerPassword username password e.server]) ∧
    (e.organization = "" → ∀ err, (resolveCredentials e).2 = .error err →
      (connect k e).trace.filter Event.isRegister = [] ∧
      (connect k e).ret = .exit (.err err) 1) ∧
    (∀ err, (resolveCredentials e).2 = .error err ↔
      e.organization = "" ∧ (e.username = "" ∨ e.password = "") ∧
        e.readPassword = .error err) := by
  have hreg := filter_connect_trace k e Event.isRegister isObserved_of_isRegister
  have hpr := filter_connect_trace k e Event.isPrompt isObserved_of_isPrompt
  refine ⟨fun ho => ⟨?_, fun ev hev => ?_⟩, fun ho username password hres => ?_,
    fun ho err hres => ⟨?_, ?_⟩, resolveCredentials_error e⟩
  · rw [hreg]
    simp only [connectCore, hh, hu, ho, if_true, if_false, registerThen, connectTail]
    repeat' split
    all_goals simp [List.filter_cons, Event.isRegister]
  · have h2 : ev ∉ (connect k e).trace.filter Event.isPrompt := by
      rw [hpr]
      simp only [connectCore, hh, hu, ho, if_true, if_false, registerThen, connectTail]
      repeat' split
      all_goals simp [List.filter_cons, Event.isPrompt]
    simpa [List.mem_filter, hev] using h2
  · rw [hreg]
    rw [resolveCredentials_eq] at hres
    simp only [connectCore, hh, hu, ho, if_true, passwordThen, registerThen, connectTail]
    repeat' split
    all_goals simp_all [List.filter_cons, Event.isRegister]
  · rw [hreg]
    rw [resolveCredentials_eq] at hres
    simp only [connectCore, hh, hu, ho, if_true, passwordThen, registerThen, connectTail]
    repeat' split
    all_goals simp_all [List.filter_cons, Event.isRegister]
  · cases hrc : resolveCredentials e with
    | mk t r =>
      rw [hrc] at hres
      simp only at hres
      subst hres
      simp [connect, hh, hu, connectSubscription, hrc]

/-- C8 as stated fails: on an unregistered system with a username flag and no
password flag, when the password read fails no register call is made. -/
theorem connect_register_dispatch_counterexample :
    connectEnvReadFails.hostname = .ok "host.example.com" ∧
    connectEnvReadFails.getConsumerUUID = .ok "" ∧
    connectEnvReadFails.organization = "" ∧
    ((connect sampleConsts connectEnvReadFails).trace.filter Event.isRegister).length ≠ 1 ∧
    (connect sampleConsts connectEnvReadFails).trace.filter Event.isRegister = [] :=
  ⟨rfl, rfl, rfl, by decide, by decide⟩

/-- C8 (amended) at a run with an organization and an activation key. -/
theorem connect_register_dispatch_witness :
    (connect sampleConsts connectEnvActivationKey).trace.filter Event.isRegister =
      [.registerActivationKey "1234567" ["key-1"] ""] ∧
    ∀ ev ∈ (connect sampleConsts connectEnvActivationKey).trace, ev.isPrompt = false :=
  (connect_register_dispatch sampleConsts connectEnvActivationKey "host.example.com"
    rfl rfl).1 (by decide)

/-- C9 (amended). With the hostname lookup succeeding, an unregistered system
and an empty organization flag: the username is prompted for exactly when the
username flag is empty; the password is prompted for exactly when the
username flag or the password flag is empty; a non-empty password flag is
the password passed to registerPassword when the username flag is non-empty;
when the username flag is empty the password flag is not used, and
registerPassword gets the trimmed line read as username and the password
read from the prompt. -/
theorem connect_prompts (k : Consts) (e : ConnectEnv) (hostname : String)
    (hh : e.hostname = .ok hostname) (hu : e.getConsumerUUID = .ok "")
    (ho : e.organization = "") :
    (Event.scanStdin ∈ (connect k e).trace ↔ e.username = "") ∧
    (Event.readPassword ∈ (connect k e).trace ↔ (e.username = "" ∨ e.password = "")) ∧
    (connect k e).trace.filter Event.isPrompt =
      (if e.username = "" then [.print "Username: ", .scanStdin] else []) ++
      (if e.username = "" ∨ e.password = "" then [.print "Password: ", .readPassword]
        else []) ∧
    (e.username ≠ "" → e.password ≠ "" →
      (connect k e).trace.filter Event.isRegister =
        [.registerPassword e.username e.password e.server]) ∧
    (e.username ≠ "" → e.password = "" → ∀ data, e.readPassword = .ok data →
      (connect k e).trace.filter Event.isRegister =
        [.registerPassword e.username data e.server]) ∧
    (e.username = "" → ∀ data, e.readPassword = .ok data →
      (connect k e).trace.filter Event.isRegister =
        [.registerPassword (trimSpace e.scannerText) data e.server]) := by
  have hreg := filter_connect_trace k e Event.isRegister isObserved_of_isRegister
  have hpr := filter_connect_trace k e Event.isPrompt isObserved_of_isPrompt
  have hmem := mem_connect_trace k e
  refine ⟨?_, ?_, ?_, fun hun hp => ?_, fun hun hp data hr => ?_, fun hun data hr => ?_⟩
  · rw [hmem _ (by rfl)]
    clear hreg hpr hmem
    simp only [connectCore, hh, hu, ho, if_true, passwordThen, registerThen, connectTail]
    repeat' split
    all_goals simp_all
  · rw [hmem _ (by rfl)]
    clear hreg hpr hmem
    simp only [connectCore, hh, hu, ho, if_true, passwordThen, registerThen, connectTail]
    repeat' split
    all_goals simp_all
  · rw [hpr]
    clear hreg hpr hmem
    simp only [connectCore, hh, hu, ho, if_true, passwordThen, registerThen, connectTail]
    repeat' split
    all_goals simp_all [List.filter_cons, Event.isPrompt]
  · rw [hreg]
    clear hreg hpr hmem
    simp only [connectCore, hh, hu, ho, if_true, passwordThen, registerThen, connectTail]
    repeat' split
    all_goals simp_all [List.filter_cons, Event.isRegister]
  · rw [hreg]
    clear hreg hpr hmem
    simp only [connectCore, hh, hu, ho, if_true, passwordThen, registerThen, connectTail]
    repeat' split
    all_goals simp_all [List.filter_cons, Event.isRegister]
  · rw [hreg]
    clear hreg hpr hmem
    simp only [connectCore, hh, hu, ho, if_true, passwordThen, registerThen, connectTail]
    repeat' split
    all_goals simp_all [List.filter_cons, Event.isRegister]

/-- C9 as stated fails: with a password flag and no username flag the password
is prompted for all the same, and registerPassword gets the typed
password, not the flag. -/
theorem connect_prompts_counterexample :
    connectEnvPasswordOnly.hostname = .ok "host.example.com" ∧
    connectEnvPasswordOnly.getConsumerUUID = .ok "" ∧
    connectEnvPasswordOnly.organization = "" ∧
    connectEnvPasswordOnly.password = "secret" ∧
    Event.readPassword ∈ (connect sampleConsts connectEnvPasswordOnly).trace ∧
    (connect sampleConsts connectEnvPasswordOnly).trace.filter Event.isRegister =
      [.registerPassword "alice" "typed" ""] :=
  ⟨rfl, rfl, rfl, rfl, by decide, by decide⟩

/-- C9 (amended) at a run with both username and password flags: no prompt,
and the flag values are passed on. -/
theorem connect_prompts_witness :
    (connect sampleConsts connectEnvRegisterFails).trace.filter Event.isPrompt = [] ∧
    (connect sampleConsts connectEnvRegisterFails).trace.filter Event.isRegister =
      [.registerPassword "alice" "secret" ""] :=
  ⟨(connect_prompts sampleConsts connectEnvRegisterFails "host.example.com" rfl rfl rfl).2.2.1,
    (connect_prompts sampleConsts connectEnvRegisterFails "host.example.com" rfl rfl rfl).2.2.2.1
      (by decide) (by decide)⟩

/-- C10 (amended). In every run of connect, every prompt event occurs after
the getConsumerUUID call and strictly before any call of
registerActivationKey, registerPassword, registerInsights or activate: at
each position of the trace that holds a prompt, getConsumerUUID is among the
earlier events and is the only subsystem call among them. -/
theorem connect_prompt_order (k : Consts) (e : ConnectEnv) (pre post : List Event)
    (p : Event) (ht : (connect k e).trace = pre ++ p :: post) (hp : p.isPrompt = true) :
    Event.getConsumerUUID ∈ pre ∧
    ∀ c ∈ pre, c.isConnectCall = true → c = .getConsumerUUID := by
  obtain ⟨h1, h2, h3⟩ := connectCore_prompt_order e
  rw [← (connect_summary k e).1] at h1 h2 h3
  have p1 := pairwise_of_filter Event.isObserved (by
    rintro a b (h | h) <;> intro ha hb <;> simp_all [Event.isObserved]) _ h1
  have p2 := pairwise_of_filter
    (R := fun a b => a.isPrompt = true → b ≠ Event.getConsumerUUID) Event.isObserved (by
    rintro a b (h | h) <;> intro ha hb <;> simp_all [Event.isObserved, Event.isConnectCall]) _ h2
  have p3 : Event.getConsumerUUID ∈ (connect k e).trace := by
    have := h3 ⟨p, List.mem_filter.2 ⟨by simp [ht], isObserved_of_isPrompt p hp⟩, hp⟩
    exact (List.mem_filter.1 this).1
  rw [ht] at p1 p2 p3
  rw [List.pairwise_append] at p1 p2
  refine ⟨?_, fun c hc hcall => p1.2.2 c hc p (by simp) hcall hp⟩
  rcases List.mem_append.1 p3 with h | h
  · exact h
  · rcases List.mem_cons.1 h with h | h
    · rw [← h] at hp
      simp [Event.isPrompt] at hp
    · exact absurd rfl ((List.pairwise_cons.1 p2.2.1).1 _ h hp)

/-- C10 as stated fails: in the run without flags on an unregistered system
the getConsumerUUID call precedes the username prompt. -/
theorem connect_prompt_order_counterexample :
    (connect sampleConsts connectEnvBase).trace =
      [.osHostname,
        .printf "Connecting %v to %v.\nThis might take a few seconds.\n\n"
          ["host.example.com", "Red Hat"],
        .getConsumerUUID] ++
      .print "Username: " ::
        [.scanStdin, .print "Password: ", .readPassword, .printf "\n\n" [],
          .registerPassword "alice" "typed" "",
          .printf "✓ Connected to Red Hat Subscription Management\n" [],
          .registerInsights,
          .printf "✓ Connected to Red Hat Insights\n" [],
          .activate,
          .printf "✓ Activated the %v daemon\n" ["rhc"],
          .printf "\nManage your Red Hat connector systems: https://red.ht/connector\n" []] ∧
    (Event.print "Username: ").isPrompt = true ∧
    Event.getConsumerUUID.isConnectCall = true ∧
    ¬ (connect sampleConsts connectEnvBase).trace.Pairwise
      (fun a b => ¬ (a.isConnectCall = true ∧ b.isPrompt = true)) :=
  ⟨by decide, rfl, rfl, by decide⟩

/-- C10 (amended) at the password prompt of the run without flags. -/
theorem connect_prompt_order_witness :
    Event.getConsumerUUID ∈ [Event.osHostname,
        .printf "Connecting %v to %v.\nThis might take a few seconds.\n\n"
          ["host.example.com", "Red Hat"],
        .getConsumerUUID, .print "Username: ", .scanStdin] ∧
    ∀ c ∈ [Event.osHostname,
        .printf "Connecting %v to %v.\nThis might take a few seconds.\n\n"
          ["host.example.com", "Red Hat"],
        .getConsumerUUID, .print "Username: ", .scanStdin],
      c.isConnectCall = true → c = .getConsumerUUID :=
  connect_prompt_order sampleConsts connectEnvBase _
    [.readPassword, .printf "\n\n" [],
      .registerPassword "alice" "typed" "",
      .printf "✓ Connected to Red Hat Subscription Management\n" [],
      .registerInsights,
      .printf "✓ Connected to Red Hat Insights\n" [],
      .activate,
      .printf "✓ Activated the %v daemon\n" ["rhc"],
      .printf "\nManage your Red Hat connector systems: https://red.ht/connector\n" []]
    (.print "Password: ") (by decide) rfl

end Rhc
